import Mathlib

/-!
Verification development for the moteconnection library.

The definitions below are shallow embeddings of the Python sources:
bytes are modelled as `List Nat` (each element a value below 256 on real
wire data), machine integers as `Nat` with explicit masking where the
source masks, and fallible code as `Option` / `Except`.  Side effects
(queue puts, serial writes, completion callbacks) are modelled as lists
of explicit action values produced by the embedded functions.
-/

namespace Moteconnection

/-! ## Framing constants (`connection_serial.py`, class attributes) -/

def HDLC_FRAMING_BYTE : Nat := 0x7e

def HDLC_ESCAPE_BYTE : Nat := 0x7d

def HDLC_XOR_BYTE : Nat := 0x20

def SERIAL_PROTOCOL_ACK : Nat := 0x43

def SERIAL_PROTOCOL_PACKET : Nat := 0x44

def SERIAL_PROTOCOL_NO_ACK_PACKET : Nat := 0x45

/-- Time is modelled in milliseconds; the source uses 0.2 seconds. -/
def SERIAL_ACK_TIMEOUT : Nat := 200

def SERIAL_SEND_TRIES : Nat := 1

/-! ## CRC (`itut_g16_crc`, connection_serial.py lines 24-34) -/

/-- One iteration of the inner bit loop of `itut_g16_crc`. -/
def crcShift (crc : Nat) : Nat :=
  if crc &&& 0x8000 ≠ 0 then ((crc <<< 1) ^^^ 0x1021) &&& 0xFFFF
  else (crc <<< 1) &&& 0xFFFF

/-- Processing of one input byte by `itut_g16_crc`: xor the byte into the
high half, then run the bit loop eight times. -/
def crcByte (crc b : Nat) : Nat := crcShift^[8] (crc ^^^ (b <<< 8))

/-- Embedding of `itut_g16_crc` (CRC-CCITT, polynomial 0x1021, initial
value 0, MSB first). -/
def itut_g16_crc (data : List Nat) : Nat := data.foldl crcByte 0

/-- The two CRC bytes appended by the writer, little endian
(`struct.pack "<H"` in `SerialConnection._write`). -/
def crcLE (data : List Nat) : List Nat :=
  [itut_g16_crc data % 256, itut_g16_crc data / 256 % 256]

/-! ## UTF-8 re-encoding

The Python 3 sources turn an integer byte value back into bytes with
`encode(chr(x))`, which UTF-8 encodes the code point: values below 0x80
give one byte, values 0x80..0xFF give two bytes.  This matters on the
unescaping path of the reader. -/

/-- UTF-8 encoding of a code point below 0x800 (covers every byte value). -/
def utf8encode (c : Nat) : List Nat :=
  if c < 0x80 then [c] else [0xC0 ||| (c >>> 6), 0x80 ||| (c &&& 0x3F)]

/-! ## HDLC escaping

The encoding direction as described by the specification (emit the frame
delimiter, escape 0x7E and 0x7D as 0x7D followed by the byte xor 0x20,
emit the delimiter).  The reader of connection_serial.py implements the
exact inverse of this escaping; the writer's escape loop is embedded
separately below as `serialWriteWire` because the source line
`obyte ^ ord(self.HDLC_XOR_BYTE)` xors a bytes slice with an int, which
raises TypeError whenever the loop reaches a byte that needs escaping. -/

def escapeByte (b : Nat) : List Nat :=
  if b = HDLC_ESCAPE_BYTE ∨ b = HDLC_FRAMING_BYTE then
    [HDLC_ESCAPE_BYTE, b ^^^ HDLC_XOR_BYTE]
  else [b]

def hdlc_escape (data : List Nat) : List Nat := data.flatMap escapeByte

def hdlc_encode (data : List Nat) : List Nat :=
  [HDLC_FRAMING_BYTE] ++ hdlc_escape data ++ [HDLC_FRAMING_BYTE]

/-! ## Streaming HDLC decoder (`SerialConnection.run`, lines 206-252)

State of the reader: the escape flag and the contents of `recv_buf`.
On a framing byte with a non-empty buffer the buffer is emitted as a
candidate frame and reset (the escape flag is not touched there, exactly
as in the source).  On any other byte the source appends either the raw
byte or, when the escape flag was set, `encode(chr(b ^ 0x20))`. -/

structure DecodeState where
  escape : Bool
  buf : List Nat
deriving DecidableEq

def initialDecodeState : DecodeState := ⟨false, []⟩

def hdlcDecodeStep (st : DecodeState) (b : Nat) : DecodeState × List (List Nat) :=
  if b = HDLC_FRAMING_BYTE then
    if st.buf ≠ [] then ({ st with buf := [] }, [st.buf]) else (st, [])
  else if b = HDLC_ESCAPE_BYTE then
    ({ st with escape := true }, [])
  else if st.escape then
    ({ escape := false, buf := st.buf ++ utf8encode (b ^^^ HDLC_XOR_BYTE) }, [])
  else
    ({ st with buf := st.buf ++ [b] }, [])

def hdlcDecodeRun (st : DecodeState) : List Nat → DecodeState × List (List Nat)
  | [] => (st, [])
  | b :: rest =>
    let step := hdlcDecodeStep st b
    let tail := hdlcDecodeRun step.1 rest
    (tail.1, step.2 ++ tail.2)

/-- Candidate frames delimited while consuming the whole input from the
initial reader state. -/
def hdlc_decode (input : List Nat) : List (List Nat) :=
  (hdlcDecodeRun initialDecodeState input).2

/-! ## Frame parsing (`SerialConnection._process_incoming_packet`) -/

inductive SerialPacketError
  | notEnoughData
  | crcMismatch
  | notEnoughAckData
  | notEnoughPacketData
  | unknownProtocol
deriving DecidableEq, Repr

/-- Tag dispatch of `_process_incoming_packet` (lines 128-150), applied
to the CRC-stripped frame: split off the protocol tag and return the
(sequence, payload) pair; the exceptions raised for short bodies or an
unknown tag become `Except.error`. -/
def parseProtocol (packet_data : List Nat) :
    Except SerialPacketError (Option Nat × Option (List Nat)) :=
  match packet_data with
  | [] => .error .notEnoughData
  | tag :: rest =>
    if tag = SERIAL_PROTOCOL_ACK then
      match rest with
      | [] => .error .notEnoughAckData
      | s :: _ => .ok (some s, none)
    else if tag = SERIAL_PROTOCOL_PACKET then
      match rest with
      | s :: b :: bs => .ok (some s, some (b :: bs))
      | _ => .error .notEnoughPacketData
    else if tag = SERIAL_PROTOCOL_NO_ACK_PACKET then
      .ok (none, some rest)
    else .error .unknownProtocol

/-- Embedding of `_process_incoming_packet` (lines 112-152): check the
trailing little-endian CRC over everything before it, then dispatch on
the protocol tag via `parseProtocol`. -/
def process_incoming_packet (data : List Nat) :
    Except SerialPacketError (Option Nat × Option (List Nat)) :=
  if data.length > 2 then
    let packet_data := data.take (data.length - 2)
    let lcrc := data.getD (data.length - 2) 0
    let mcrc := data.getD (data.length - 1) 0
    let packet_crc := (mcrc <<< 8) + lcrc
    let crc := itut_g16_crc packet_data
    if crc ≠ packet_crc then .error .crcMismatch
    else parseProtocol packet_data
  else .error .notEnoughData

/-! ## Packets

Modelled from the spec: the file `src/moteconnection/packet.py` (class
`Packet`) is not present in the tree, only its users are.  Per the spec's
data model a packet carries a dispatch byte (the first byte on the wire
for a dispatched frame), an opaque payload and an optional completion
callback; callbacks are identified here by an opaque number. -/

structure Packet where
  dispatch : Nat
  payload : List Nat
  callback : Option Nat
deriving DecidableEq, Repr

/-- Modelled from the spec: serialization of the base `Packet` (missing
`packet.py`) puts the dispatch byte first, followed by the payload. -/
def Packet.serialize (p : Packet) : List Nat := p.dispatch :: p.payload

/-! ## Serial write path (`SerialConnection._write`, lines 154-182)

The body assembled into the `data` buffer: the protocol tag, then for the
ACK/PACKET cases the sequence byte written as `chr(seq).encode()` (UTF-8,
hence two bytes for seq at or above 0x80), then the payload, then the CRC
of everything so far in little endian.  The escape loop that follows
raises TypeError on the line `obyte ^ ord(self.HDLC_XOR_BYTE)` (a bytes
slice xored with an int) as soon as some byte of the body equals 0x7D or
0x7E, so the whole write is modelled as `Option`: `none` when the loop
crashes and nothing reaches the port, otherwise the exact bytes written. -/

def writeBody (seq : Option Nat) (packet : Option (List Nat)) : List Nat :=
  (match seq, packet with
   | none, _ => [SERIAL_PROTOCOL_NO_ACK_PACKET]
   | some s, none => SERIAL_PROTOCOL_ACK :: utf8encode s
   | some s, some _ => SERIAL_PROTOCOL_PACKET :: utf8encode s)
  ++ packet.getD []

def serialWriteWire (seq : Option Nat) (packet : Option (List Nat)) : Option (List Nat) :=
  let body := writeBody seq packet ++ crcLE (writeBody seq packet)
  if body.any (fun b => b = HDLC_ESCAPE_BYTE ∨ b = HDLC_FRAMING_BYTE) then none
  else some ([HDLC_FRAMING_BYTE] ++ body ++ [HDLC_FRAMING_BYTE])

/-! ## Serial session state machine (`SerialConnection.run`, lines 205-280)

The session state private to the serial worker.  `serialized`, `tries`
and `timestamp` describe the in-flight slot and are meaningful while
`outgoing` is occupied; `timestamp` and `now` are in milliseconds.  The
observable effects of one step are returned as a list of actions: a
MESSAGE_INCOMING event put on the supervisor queue, an invocation of
`_write seq packet`, or a completion callback. -/

structure SerialState where
  seq_in : Option Nat
  seq_out : Option Nat
  outgoing : Option Packet
  serialized : List Nat
  tries : Nat
  timestamp : Nat
deriving DecidableEq, Repr

/-- Observable effects of one step of the serial worker.  A `wrote`
action records the escaped frame bytes actually passed to
`serial_port.write`; when `_write` raises TypeError in its escape loop
instead (see `serialWriteWire`), nothing is written, the exception is not
caught anywhere in `run` (the inner handler only catches
SerialPacketException, the outer one only serial.SerialException and
OSError), the `finally` block runs `_disconnected` — modelled as the
`disconnectedEvent` action — and the worker thread dies. -/
inductive SerialAction
  | incoming (body : List Nat)
  | wrote (bytes : List Nat)
  | callback (p : Packet) (delivered : Bool)
  | disconnectedEvent
deriving DecidableEq, Repr

/-- Callback actions fired for a packet: the source guards every callback
invocation with `if outgoing.callback is not None`. -/
def cbActions (p : Packet) (delivered : Bool) : List SerialAction :=
  match p.callback with
  | some _ => [SerialAction.callback p delivered]
  | none => []

/-- Embedding of the frame-handling branch of `SerialConnection.run`
(lines 211-244): a complete candidate frame `raw` was delimited and is
parsed and dispatched on (seq, packet).  Parse errors are logged and
dropped.  A NO_ACK body is forwarded as-is; a PACKET body is forwarded
unless its sequence equals `seq_in` (duplicate), with the `seq_in` update
and the queue put happening before the ACK reply; the ACK reply
`_write(seq, None)` at line 227 then either writes the escaped ACK frame
(`serialWriteWire` succeeds) or raises TypeError in the escape loop, in
which case nothing is written and the session dies with a DISCONNECTED
event.  An inbound ACK clears a matching in-flight slot, fires its
callback with True and advances `seq_out` masked to a byte, and is
otherwise ignored (no write happens on that path). -/
def handleFrame (st : SerialState) (raw : List Nat) : SerialState × List SerialAction :=
  match process_incoming_packet raw with
  | .error _ => (st, [])
  | .ok (seqOpt, packetOpt) =>
    match seqOpt with
    | none =>
      match packetOpt with
      | some packet => (st, [SerialAction.incoming packet])
      | none => (st, [])
    | some seq =>
      match packetOpt with
      | some packet =>
        let ackReply : List SerialAction :=
          match serialWriteWire (some seq) none with
          | some wire => [SerialAction.wrote wire]
          | none => [SerialAction.disconnectedEvent]
        if some seq ≠ st.seq_in then
          ({ st with seq_in := some seq },
           [SerialAction.incoming packet] ++ ackReply)
        else
          (st, ackReply)
      | none =>
        match st.outgoing, st.seq_out with
        | some outgoing, some so =>
          if seq = so then
            ({ st with outgoing := none, seq_out := some ((so + 1) &&& 0xFF) },
             cbActions outgoing true)
          else (st, [])
        | _, _ => (st, [])

/-- Embedding of the outbound-servicing branch of `SerialConnection.run`
(lines 253-280), executed when no byte was read: pull a packet into the
empty slot (serialize it, tries = SERIAL_SEND_TRIES, timestamp = 0),
then, if the slot is occupied and the ACK timeout has passed: with tries
left, call `_write(seq_out, serialized)` (line 266).  When that call
returns (the escaped frame contains no byte that would crash the escape
loop, i.e. `serialWriteWire` succeeds) the frame bytes are on the wire
and the code after the call runs: with acks on, decrement tries and
restart the timer; with `seq_out = none`, fire the callback with False
and clear the slot.  When `_write` raises TypeError instead, none of
that code runs — no bytes are written, no callback fires, the state is
left as it was after the pull, and the session dies with a DISCONNECTED
event.  With no tries left, fire the callback with False, clear the
slot, and advance `seq_out` masked to a byte when acks are on (no write
on that path).  Returns the new state, the remaining outbound queue and
the actions. -/
def serviceOutgoing (st : SerialState) (outqueue : List Packet) (now : Nat) :
    SerialState × List Packet × List SerialAction :=
  let pulled : SerialState × List Packet :=
    match st.outgoing, outqueue with
    | none, p :: rest =>
      ({ st with outgoing := some p, serialized := p.serialize,
                 tries := SERIAL_SEND_TRIES, timestamp := 0 }, rest)
    | _, _ => (st, outqueue)
  let st1 := pulled.1
  let q1 := pulled.2
  match st1.outgoing with
  | none => (st1, q1, [])
  | some outgoing =>
    if now > st1.timestamp + SERIAL_ACK_TIMEOUT then
      if st1.tries > 0 then
        match serialWriteWire st1.seq_out (some st1.serialized) with
        | none => (st1, q1, [SerialAction.disconnectedEvent])
        | some wire =>
          match st1.seq_out with
          | some _ =>
            ({ st1 with tries := st1.tries - 1, timestamp := now }, q1,
             [SerialAction.wrote wire])
          | none =>
            ({ st1 with outgoing := none }, q1,
             [SerialAction.wrote wire] ++ cbActions outgoing false)
      else
        ({ st1 with outgoing := none, seq_out := st1.seq_out.map (fun s => (s + 1) &&& 0xFF) },
         q1, cbActions outgoing false)
    else (st1, q1, [])

/-- Embedding of `SerialConnection.send` (lines 94-99): when the
connected flag is set the packet is put on the outbound queue, otherwise
it is logged and dropped without any further effect. -/
def serialSend (connected : Bool) (outqueue : List Packet) (packet : Packet) :
    List Packet × List SerialAction :=
  if connected then (outqueue ++ [packet], []) else (outqueue, [])

/-! ## SF transport send (`SfConnection.send`, connection_forwarder.py
lines 51-66)

The send serializes the packet and, when the connected flag is set,
writes the length byte followed by the data; a socket error (abstracted
by `sockOk`) triggers `_disconnected` and leaves `acked` False.  When not
connected the packet is dropped.  In every case the callback, when set,
finally fires with `acked`. -/

inductive SfAction
  | write (bytes : List Nat)
  | disconnectedEvent
  | callback (p : Packet) (delivered : Bool)
deriving DecidableEq, Repr

def sfSend (connected : Bool) (sockOk : Bool) (packet : Packet) : List SfAction :=
  let data := packet.serialize
  let step : Bool × List SfAction :=
    if connected then
      if sockOk then (true, [SfAction.write ([data.length] ++ data)])
      else (false, [SfAction.disconnectedEvent])
    else (false, [])
  step.2 ++ (match packet.callback with
             | some _ => [SfAction.callback packet step.1]
             | none => [])

/-! ## Active messages (`message.py`)

The `Message` fields mirror the Python attributes: the underscore-named
attributes may be unset (`None`), which the property getters map to 0.
The completion callback of the `Packet` base class plays no role in any
message claim and is left out of this structure. -/

def AM_BROADCAST_ADDR : Nat := 0xFFFF

structure Message where
  _dispatch : Nat
  _destination : Option Nat
  _source : Option Nat
  _group : Option Nat
  _type : Option Nat
  _payload : List Nat
  _footer : List Nat
deriving DecidableEq, Repr

/-- Embedding of `Message.__init__` (ptype defaults to 0, destination to
None, payload to empty): sets dispatch 0 through the `Packet` base class
and an empty footer. -/
def Message.init (ptype : Nat) (destination : Option Nat) (payload : List Nat) : Message :=
  { _dispatch := 0, _destination := destination, _source := none, _group := none,
    _type := some ptype, _payload := payload, _footer := [] }

/-- Property getter for the dispatch byte (via the `Packet` base class). -/
def Message.dispatch (m : Message) : Nat := m._dispatch

/-- Property getter: an unset destination reads as 0. -/
def Message.destination (m : Message) : Nat := m._destination.getD 0

/-- Property getter: an unset source reads as 0. -/
def Message.source (m : Message) : Nat := m._source.getD 0

/-- Property getter: an unset group reads as 0. -/
def Message.group (m : Message) : Nat := m._group.getD 0

/-- Property getter: an unset type reads as 0. -/
def Message.type (m : Message) : Nat := m._type.getD 0

/-- Embedding of `Message.serialize` (lines 90-92): pack the header
big-endian per format "! B H H B B B" using the property values, then
append payload and footer.  `struct.pack` raises when a field does not
fit its format code, which is modelled by `none`. -/
def Message.serialize (m : Message) : Option (List Nat) :=
  if m.dispatch < 256 ∧ m.destination < 65536 ∧ m.source < 65536 ∧
     m._payload.length < 256 ∧ m.group < 256 ∧ m.type < 256 then
    some ([m.dispatch, m.destination / 256, m.destination % 256,
           m.source / 256, m.source % 256, m._payload.length, m.group, m.type]
          ++ m._payload ++ m._footer)
  else none

/-- Embedding of `Message.deserialize` (lines 94-109): unpack the 8-byte
header (a shorter buffer raises struct.error), then split the rest at the
declared payload length; a declared length larger than the rest raises
ValueError.  Both failures are modelled by `none`. -/
def Message.deserialize (data : List Nat) : Option Message :=
  match data with
  | d0 :: d1 :: d2 :: d3 :: d4 :: length :: d6 :: d7 :: rest =>
    if length ≤ rest.length then
      some { _dispatch := d0, _destination := some (d1 * 256 + d2),
             _source := some (d3 * 256 + d4), _group := some d6, _type := some d7,
             _payload := rest.take length, _footer := rest.drop length }
    else none
  | _ => none

/-! ## Message dispatcher routing (`MessageDispatcher.receive`, lines 164-178)

The receiver and snooper tables map a type byte to a handler; handlers
are identified by opaque numbers.  The result records which table entry
(or default) the `_deliver` call used, or that the message was dropped or
failed to deserialize. -/

structure MessageDispatcher where
  address : Nat
  group : Nat
  receivers : Nat → Option Nat
  default_receiver : Option Nat
  snoopers : Nat → Option Nat
  default_snooper : Option Nat

inductive Routed
  | viaReceivers (h : Nat)
  | viaDefaultReceiver (h : Nat)
  | viaSnoopers (h : Nat)
  | viaDefaultSnooper (h : Nat)
  | dropped
  | deserializeError
deriving DecidableEq, Repr

def MessageDispatcher.receive (d : MessageDispatcher) (data : List Nat) : Routed :=
  match Message.deserialize data with
  | none => .deserializeError
  | some m =>
    if m.destination = d.address ∨ m.destination = 0 ∨ m.destination = AM_BROADCAST_ADDR then
      match d.receivers m.type with
      | some h => .viaReceivers h
      | none =>
        match d.default_receiver with
        | some h => .viaDefaultReceiver h
        | none => .dropped
    else
      match d.snoopers m.type with
      | some h => .viaSnoopers h
      | none =>
        match d.default_snooper with
        | some h => .viaDefaultSnooper h
        | none => .dropped

/-! ## Helper lemmas -/

/-- Masking with 0xFF is reduction mod 256, as used for sequence numbers. -/
theorem and_255_eq_mod (n : Nat) : n &&& 0xFF = n % 256 := by
  simpa using Nat.and_pow_two_sub_one_eq_mod n 8

theorem crcShift_lt (c : Nat) : crcShift c < 65536 := by
  unfold crcShift
  split <;> exact Nat.lt_succ_of_le Nat.and_le_right

theorem crcByte_lt (c b : Nat) : crcByte c b < 65536 := by
  unfold crcByte
  rw [show (8 : Nat) = 7 + 1 from rfl, Function.iterate_succ_apply']
  exact crcShift_lt _

theorem itut_g16_crc_lt (data : List Nat) : itut_g16_crc data < 65536 := by
  unfold itut_g16_crc
  suffices h : ∀ c, c < 65536 → data.foldl crcByte c < 65536 from h 0 (by omega)
  induction data with
  | nil => intro c hc; simpa using hc
  | cons b bs ih => intro c _; exact ih (crcByte c b) (crcByte_lt c b)

/-- Number of successful port writes among a list of serial actions. -/
def wroteCount (acts : List SerialAction) : Nat :=
  (acts.filter fun a => match a with | .wrote _ => true | _ => false).length

/-! ## Claims -/

/-- C1: the receive rules of the claim hold only up to the ACK reply, and
the ACK reply itself is broken in the code: for the CRC-valid reliable
PACKET frame 44 7D AB E9 BB (sequence 0x7D) arriving on a fresh session,
seq_in is set and one INCOMING with the body is emitted, but assembling
the ACK frame 43 7D 9E.. hits the TypeError in the escape loop of
`_write` (bytes slice xor int, connection_serial.py line 176), so nothing
is written to the port and the session dies with a DISCONNECTED event —
no ACK frame carrying sequence 0x7D is ever written, and a second
identical frame is never processed. -/
theorem c1_failing_trace :
    process_incoming_packet [0x44, 0x7D, 0xAB, 0xE9, 0xBB] = .ok (some 0x7D, some [0xAB]) ∧
    serialWriteWire (some 0x7D) none = none ∧
    handleFrame (SerialState.mk none (some 0) none [] 0 0) [0x44, 0x7D, 0xAB, 0xE9, 0xBB] =
      (SerialState.mk (some 0x7D) (some 0) none [] 0 0,
       [SerialAction.incoming [0xAB], SerialAction.disconnectedEvent]) ∧
    wroteCount (handleFrame (SerialState.mk none (some 0) none [] 0 0)
        [0x44, 0x7D, 0xAB, 0xE9, 0xBB]).2 = 0 :=
  ⟨rfl, rfl, by decide, by decide⟩

/-- C2: an inbound ACK matching an occupied slot fires the callback with
True, clears the slot and advances seq_out by one mod 256; any other ACK
leaves the state unchanged and has no effect; abandonment after
exhausting tries also clears the slot, fires the callback with False and
advances seq_out by one mod 256. -/
theorem c2_ack_rules
    (st : SerialState) (raw : List Nat) (s : Nat)
    (hparse : process_incoming_packet raw = .ok (some s, none)) :
    (∀ p, st.outgoing = some p → st.seq_out = some s →
       handleFrame st raw =
         ({ st with outgoing := none, seq_out := some ((s + 1) % 256) }, cbActions p true)) ∧
    (st.outgoing = none ∨ st.seq_out = none ∨ st.seq_out ≠ some s →
       handleFrame st raw = (st, [])) ∧
    (∀ p q now, st.outgoing = some p → st.tries = 0 →
       now > st.timestamp + SERIAL_ACK_TIMEOUT →
       (serviceOutgoing st q now).1.outgoing = none ∧
       (serviceOutgoing st q now).1.seq_out = st.seq_out.map (fun x => (x + 1) % 256) ∧
       (serviceOutgoing st q now).2.1 = q ∧
       (serviceOutgoing st q now).2.2 = cbActions p false) := by
  refine ⟨?_, ?_, ?_⟩
  · intro p hout hseq
    unfold handleFrame
    rw [hparse, hout, hseq]
    simp [and_255_eq_mod]
  · intro h
    unfold handleFrame
    rw [hparse]
    rcases hout : st.outgoing with _ | p
    · simp
    · rcases hso : st.seq_out with _ | so
      · simp
      · have hne : s ≠ so := by
          intro he
          rcases h with h | h | h
          · rw [hout] at h; cases h
          · rw [hso] at h; cases h
          · exact h (by rw [hso, he])
        simp [hne]
  · intro p q now hout htries hnow
    rcases hso : st.seq_out with _ | s0 <;>
      simp [serviceOutgoing, hout, htries, hso, hnow, and_255_eq_mod]

/-- Witness for C2 with the concrete ACK frame 43 05 3A 08 matching an
in-flight packet at seq_out = 5. -/
theorem c2_witness :
    process_incoming_packet [0x43, 0x05, 0x3A, 0x08] = .ok (some 5, none) ∧
    handleFrame
        (SerialState.mk none (some 5) (some (Packet.mk 0 [1] (some 9))) [0, 1] 0 0)
        [0x43, 0x05, 0x3A, 0x08] =
      (SerialState.mk none (some 6) none [0, 1] 0 0,
       [SerialAction.callback (Packet.mk 0 [1] (some 9)) true]) :=
  ⟨rfl,
   (c2_ack_rules (SerialState.mk none (some 5) (some (Packet.mk 0 [1] (some 9))) [0, 1] 0 0)
      [0x43, 0x05, 0x3A, 0x08] 5 rfl).1 (Packet.mk 0 [1] (some 9)) rfl rfl⟩

/-- C3 counterexample: with ACKs disabled, servicing the outbound slot
for a freshly pulled packet whose assembled frame needs no escaping
writes the NO_ACK frame and fires the callback with False, not True as
the claim states. -/
theorem c3_counterexample :
    (serviceOutgoing (SerialState.mk none none none [] 0 0)
        [Packet.mk 0x3F [0x01] (some 1)] 1000).2.2 =
      [SerialAction.wrote [0x7E, 0x45, 0x3F, 0x01, 0xD7, 0xF3, 0x7E],
       SerialAction.callback (Packet.mk 0x3F [0x01] (some 1)) false] ∧
    SerialAction.callback (Packet.mk 0x3F [0x01] (some 1)) true ∉
      (serviceOutgoing (SerialState.mk none none none [] 0 0)
        [Packet.mk 0x3F [0x01] (some 1)] 1000).2.2 := by decide

/-- C3 amended: with ACKs disabled (seq_out = none), a packet pulled from
the outbound queue is framed as a NO_ACK_PACKET (tag 0x45, no sequence
byte).  When the assembled frame together with its CRC contains no byte
needing escape, the escaped frame is written and the callback, if set,
fires with delivered = False (not True) immediately after the write,
clearing the slot; when some byte needs escape, `_write` raises TypeError
before anything reaches the port, the callback never fires, the slot
stays occupied, and the session dies. -/
theorem c3_amended_noack_send
    (st : SerialState) (p : Packet) (q : List Packet) (now : Nat)
    (hseq : st.seq_out = none) (hslot : st.outgoing = none)
    (hnow : SERIAL_ACK_TIMEOUT < now) :
    (∀ wire, serialWriteWire none (some p.serialize) = some wire →
       serviceOutgoing st (p :: q) now =
         ({ st with outgoing := none, serialized := p.serialize,
                    tries := SERIAL_SEND_TRIES, timestamp := 0 }, q,
          [SerialAction.wrote wire] ++ cbActions p false)) ∧
    (serialWriteWire none (some p.serialize) = none →
       serviceOutgoing st (p :: q) now =
         ({ st with outgoing := some p, serialized := p.serialize,
                    tries := SERIAL_SEND_TRIES, timestamp := 0 }, q,
          [SerialAction.disconnectedEvent])) ∧
    writeBody none (some p.serialize) = SERIAL_PROTOCOL_NO_ACK_PACKET :: p.serialize := by
  refine ⟨?_, ?_, by simp [writeBody]⟩
  · intro wire hw
    simp [serviceOutgoing, hslot, hseq, SERIAL_SEND_TRIES, hnow, hw]
  · intro hw
    simp [serviceOutgoing, hslot, hseq, SERIAL_SEND_TRIES, hnow, hw]

/-- Witness for C3's amended statement at a concrete packet and state,
exercising the escape-free branch. -/
theorem c3_witness :
    serviceOutgoing (SerialState.mk (some 3) none none [] 0 0)
        [Packet.mk 0x02 [0xAA] (some 4)] 500 =
      (SerialState.mk (some 3) none none [0x02, 0xAA] 1 0, [],
       [SerialAction.wrote [0x7E, 0x45, 0x02, 0xAA, 0x9F, 0x84, 0x7E],
        SerialAction.callback (Packet.mk 0x02 [0xAA] (some 4)) false]) ∧
    writeBody none (some [0x02, 0xAA]) = [0x45, 0x02, 0xAA] :=
  ⟨((c3_amended_noack_send (SerialState.mk (some 3) none none [] 0 0)
      (Packet.mk 0x02 [0xAA] (some 4)) [] 500 rfl rfl (by decide)).1
      [0x7E, 0x45, 0x02, 0xAA, 0x9F, 0x84, 0x7E] (by decide)), by decide⟩

/-- C9: an SF-transport send while not connected writes nothing to the
socket and fires the packet's callback, when set, with delivered = False. -/
theorem c9_sf_send_not_connected (sockOk : Bool) (p : Packet) :
    sfSend false sockOk p =
      (match p.callback with
       | some _ => [SfAction.callback p false]
       | none => []) ∧
    ∀ bytes, SfAction.write bytes ∉ sfSend false sockOk p := by
  constructor
  · unfold sfSend
    simp
  · intro bytes hmem
    unfold sfSend at hmem
    simp at hmem
    rcases hc : p.callback with _ | c <;> rw [hc] at hmem <;> simp at hmem

/-- C10: a serial-transport send while not connected leaves the outbound
queue unchanged and produces no action at all — in particular the
callback never fires — whereas the SF transport in the same situation
fires the callback with False. -/
theorem c10_serial_send_not_connected (q : List Packet) (p : Packet) (sockOk : Bool)
    (hcb : p.callback.isSome) :
    serialSend false q p = (q, []) ∧
    (∀ x b, SerialAction.callback x b ∉ (serialSend false q p).2) ∧
    SfAction.callback p false ∈ sfSend false sockOk p := by
  refine ⟨by simp [serialSend], ?_, ?_⟩
  · intro x b hmem
    simp [serialSend] at hmem
  · unfold sfSend
    rcases hc : p.callback with _ | c
    · rw [hc] at hcb; simp at hcb
    · simp

/-- Witness for C10 at a concrete packet carrying a callback. -/
theorem c10_witness :
    serialSend false [] (Packet.mk 0 [1, 2] (some 5)) = ([], []) ∧
    SfAction.callback (Packet.mk 0 [1, 2] (some 5)) false ∈
      sfSend false true (Packet.mk 0 [1, 2] (some 5)) :=
  ⟨(c10_serial_send_not_connected [] (Packet.mk 0 [1, 2] (some 5)) true (by decide)).1,
   (c10_serial_send_not_connected [] (Packet.mk 0 [1, 2] (some 5)) true (by decide)).2.2⟩

/-! ## Decoder lemmas for C4 -/

theorem hdlcDecodeRun_append (st : DecodeState) (xs ys : List Nat) :
    hdlcDecodeRun st (xs ++ ys) =
      ((hdlcDecodeRun (hdlcDecodeRun st xs).1 ys).1,
       (hdlcDecodeRun st xs).2 ++ (hdlcDecodeRun (hdlcDecodeRun st xs).1 ys).2) := by
  induction xs generalizing st with
  | nil => simp [hdlcDecodeRun]
  | cons b bs ih => simp [hdlcDecodeRun, ih]

theorem hdlcDecodeRun_escaped_7d (buf : List Nat) :
    hdlcDecodeRun ⟨false, buf⟩ [0x7D, 0x5D] = (⟨false, buf ++ [0x7D]⟩, []) := rfl

theorem hdlcDecodeRun_escaped_7e (buf : List Nat) :
    hdlcDecodeRun ⟨false, buf⟩ [0x7D, 0x5E] = (⟨false, buf ++ [0x7E]⟩, []) := rfl

theorem hdlcDecodeRun_plain (b : Nat) (buf : List Nat)
    (h7d : b ≠ 0x7D) (h7e : b ≠ 0x7E) :
    hdlcDecodeRun ⟨false, buf⟩ [b] = (⟨false, buf ++ [b]⟩, []) := by
  simp [hdlcDecodeRun, hdlcDecodeStep, HDLC_FRAMING_BYTE, HDLC_ESCAPE_BYTE, h7d, h7e]

theorem hdlcDecodeRun_escape (B : List Nat) (buf : List Nat) :
    hdlcDecodeRun ⟨false, buf⟩ (hdlc_escape B) = (⟨false, buf ++ B⟩, []) := by
  induction B generalizing buf with
  | nil => simp [hdlc_escape, hdlcDecodeRun]
  | cons b bs ih =>
    have hsplit : hdlc_escape (b :: bs) = escapeByte b ++ hdlc_escape bs := by
      simp [hdlc_escape]
    rw [hsplit, hdlcDecodeRun_append]
    by_cases h7d : b = 0x7D
    · subst h7d
      rw [show escapeByte 0x7D = [0x7D, 0x5D] from rfl, hdlcDecodeRun_escaped_7d, ih]
      simp
    · by_cases h7e : b = 0x7E
      · subst h7e
        rw [show escapeByte 0x7E = [0x7D, 0x5E] from rfl, hdlcDecodeRun_escaped_7e, ih]
        simp
      · rw [show escapeByte b = [b] by
              simp [escapeByte, HDLC_ESCAPE_BYTE, HDLC_FRAMING_BYTE, h7d, h7e],
            hdlcDecodeRun_plain b buf h7d h7e, ih]
        simp

theorem hdlcDecodeRun_delimiter (buf : List Nat) (h : buf ≠ []) :
    hdlcDecodeRun ⟨false, buf⟩ [0x7E] = (⟨false, []⟩, [buf]) := by
  simp [hdlcDecodeRun, hdlcDecodeStep, HDLC_FRAMING_BYTE, h]

theorem parseProtocol_ne_crcMismatch (packet_data : List Nat) :
    parseProtocol packet_data ≠ .error .crcMismatch := by
  unfold parseProtocol
  split
  · simp
  · split_ifs <;> first | (split <;> simp) | simp

theorem process_incoming_packet_crc (body : List Nat) (hbody : body ≠ []) :
    process_incoming_packet (body ++ crcLE body) = parseProtocol body := by
  have hlen : (body ++ crcLE body).length = body.length + 2 := by
    simp [crcLE]
  have hpos : 0 < body.length := List.length_pos.2 hbody
  have hc := itut_g16_crc_lt body
  unfold process_incoming_packet
  rw [hlen]
  rw [if_pos (by omega)]
  have htake : (body ++ crcLE body).take (body.length + 2 - 2) = body := by
    simp [List.take_left body (crcLE body)]
  have hlo : (body ++ crcLE body).getD (body.length + 2 - 2) 0 = itut_g16_crc body % 256 := by
    rw [show body.length + 2 - 2 = body.length by omega,
        List.getD_append_right _ _ _ _ (le_refl _)]
    simp [crcLE]
  have hhi : (body ++ crcLE body).getD (body.length + 2 - 1) 0 =
      itut_g16_crc body / 256 % 256 := by
    rw [show body.length + 2 - 1 = body.length + 1 by omega,
        List.getD_append_right _ _ _ _ (by omega : body.length ≤ body.length + 1)]
    simp [crcLE, List.getD]
  rw [htake, hlo, hhi]
  rw [if_neg]
  simp only [ne_eq, not_not, Nat.shiftLeft_eq]
  omega

/-- C4 counterexample: for the empty byte sequence the encoding is the
two delimiters 7E 7E and the decoder emits no candidate frame at all,
rather than the single frame required by the claim. -/
theorem c4_counterexample :
    hdlc_decode (hdlc_encode ([] : List Nat)) = [] ∧
    ([] : List (List Nat)) ≠ [([] : List Nat)] := by decide

/-- C4 amended: for every nonempty byte sequence B, feeding the
HDLC-escaped encoding of B through the streaming decoder reconstructs
exactly the single candidate frame B; and for every nonempty body the
CRC appended by the serial frame writer verifies under the receiver's
CRC check (the receiver never reports a CRC mismatch on such input). -/
theorem c4_amended_hdlc_roundtrip (B body : List Nat) (hB : B ≠ []) (hbody : body ≠ []) :
    hdlc_decode (hdlc_encode B) = [B] ∧
    process_incoming_packet (body ++ crcLE body) ≠ .error .crcMismatch := by
  constructor
  · have henc : hdlc_encode B = 0x7E :: (hdlc_escape B ++ [0x7E]) := by
      simp [hdlc_encode, HDLC_FRAMING_BYTE]
    have e0 : hdlcDecodeRun ⟨false, []⟩ (0x7E :: (hdlc_escape B ++ [0x7E])) =
        hdlcDecodeRun ⟨false, []⟩ (hdlc_escape B ++ [0x7E]) := rfl
    show (hdlcDecodeRun initialDecodeState (hdlc_encode B)).2 = [B]
    rw [henc, show initialDecodeState = (⟨false, []⟩ : DecodeState) from rfl, e0,
        hdlcDecodeRun_append, hdlcDecodeRun_escape]
    simp [hdlcDecodeRun_delimiter B hB]
  · rw [process_incoming_packet_crc body hbody]
    exact parseProtocol_ne_crcMismatch body

/-- Witness for C4's amended statement on a one-byte frame body. -/
theorem c4_witness :
    hdlc_decode (hdlc_encode [0x01]) = [[0x01]] ∧
    process_incoming_packet ([0x45] ++ crcLE [0x45]) ≠ .error .crcMismatch :=
  c4_amended_hdlc_roundtrip [0x01] [0x45] (by decide) (by decide)

/-- C5: for every well-formed Message (every header field within its wire
range and the payload length below 256), deserializing its serialization
yields a Message equal to it field by field — dispatch, destination,
source, group, type, payload and footer — including the footer-less case
where the footer is empty. -/
theorem c5_message_roundtrip (m : Message)
    (hd : m.dispatch < 256) (hdest : m.destination < 65536) (hsrc : m.source < 65536)
    (hp : m._payload.length < 256) (hg : m.group < 256) (ht : m.type < 256) :
    (m.serialize.bind Message.deserialize).map
        (fun r => (r.dispatch, r.destination, r.source, r.group, r.type, r._payload, r._footer)) =
      some (m.dispatch, m.destination, m.source, m.group, m.type, m._payload, m._footer) := by
  unfold Message.serialize
  rw [if_pos ⟨hd, hdest, hsrc, hp, hg, ht⟩]
  rw [Option.some_bind]
  have hshape : ([m.dispatch, m.destination / 256, m.destination % 256,
        m.source / 256, m.source % 256, m._payload.length, m.group, m.type]
        ++ m._payload ++ m._footer) =
      m.dispatch :: (m.destination / 256) :: (m.destination % 256) ::
        (m.source / 256) :: (m.source % 256) :: m._payload.length :: m.group :: m.type ::
        (m._payload ++ m._footer) := by
    simp
  rw [hshape]
  rw [show Message.deserialize
        (m.dispatch :: (m.destination / 256) :: (m.destination % 256) ::
          (m.source / 256) :: (m.source % 256) :: m._payload.length :: m.group :: m.type ::
          (m._payload ++ m._footer)) =
      (if m._payload.length ≤ (m._payload ++ m._footer).length then
        some { _dispatch := m.dispatch,
               _destination := some (m.destination / 256 * 256 + m.destination % 256),
               _source := some (m.source / 256 * 256 + m.source % 256),
               _group := some m.group, _type := some m.type,
               _payload := (m._payload ++ m._footer).take m._payload.length,
               _footer := (m._payload ++ m._footer).drop m._payload.length }
      else none) from rfl]
  rw [if_pos (by simp : m._payload.length ≤ (m._payload ++ m._footer).length)]
  rw [Option.map_some']
  refine congrArg some ?_
  show (m.dispatch, m.destination / 256 * 256 + m.destination % 256,
        m.source / 256 * 256 + m.source % 256, m.group, m.type,
        (m._payload ++ m._footer).take m._payload.length,
        (m._payload ++ m._footer).drop m._payload.length) =
       (m.dispatch, m.destination, m.source, m.group, m.type, m._payload, m._footer)
  rw [show m.destination / 256 * 256 + m.destination % 256 = m.destination by omega,
      show m.source / 256 * 256 + m.source % 256 = m.source by omega,
      List.take_left, List.drop_left]

/-- Witness for C5 on a concrete message with payload 01 02 03 and empty
footer. -/
theorem c5_witness :
    ((Message.mk 0 (some 2) (some 1) (some 0x22) (some 0x10) [1, 2, 3] []).serialize.bind
        Message.deserialize).map
        (fun r => (r.dispatch, r.destination, r.source, r.group, r.type, r._payload, r._footer)) =
      some (0, 2, 1, 0x22, 0x10, [1, 2, 3], []) :=
  c5_message_roundtrip (Message.mk 0 (some 2) (some 1) (some 0x22) (some 0x10) [1, 2, 3] [])
    (by decide) (by decide) (by decide) (by decide) (by decide) (by decide)

/-- C6: a successfully deserialized inbound message whose destination is
the dispatcher's address, 0 or 0xFFFF is delivered through the receiver
table — the per-type receiver when present, else the default receiver,
else dropped — and never through a snooper entry; any other destination
is delivered through the snooper table — the per-type snooper, else the
default snooper, else dropped — and never through a receiver entry. -/
theorem c6_dispatcher_routing (d : MessageDispatcher) (data : List Nat) (m : Message)
    (hm : Message.deserialize data = some m) :
    (m.destination = d.address ∨ m.destination = 0 ∨ m.destination = AM_BROADCAST_ADDR →
       d.receive data =
         (match d.receivers m.type with
          | some h => Routed.viaReceivers h
          | none =>
            match d.default_receiver with
            | some h => Routed.viaDefaultReceiver h
            | none => Routed.dropped) ∧
       ∀ h, d.receive data ≠ Routed.viaSnoopers h ∧ d.receive data ≠ Routed.viaDefaultSnooper h) ∧
    (¬(m.destination = d.address ∨ m.destination = 0 ∨ m.destination = AM_BROADCAST_ADDR) →
       d.receive data =
         (match d.snoopers m.type with
          | some h => Routed.viaSnoopers h
          | none =>
            match d.default_snooper with
            | some h => Routed.viaDefaultSnooper h
            | none => Routed.dropped) ∧
       ∀ h, d.receive data ≠ Routed.viaReceivers h ∧ d.receive data ≠ Routed.viaDefaultReceiver h) := by
  constructor
  · intro hdest
    have hr : d.receive data =
        (match d.receivers m.type with
         | some h => Routed.viaReceivers h
         | none =>
           match d.default_receiver with
           | some h => Routed.viaDefaultReceiver h
           | none => Routed.dropped) := by
      unfold MessageDispatcher.receive
      rw [hm]
      simp only [if_pos hdest]
    refine ⟨hr, fun h => ?_⟩
    rw [hr]
    rcases d.receivers m.type with _ | a
    · rcases d.default_receiver with _ | b <;> simp
    · simp
  · intro hdest
    have hr : d.receive data =
        (match d.snoopers m.type with
         | some h => Routed.viaSnoopers h
         | none =>
           match d.default_snooper with
           | some h => Routed.viaDefaultSnooper h
           | none => Routed.dropped) := by
      unfold MessageDispatcher.receive
      rw [hm]
      simp only [if_neg hdest]
    refine ⟨hr, fun h => ?_⟩
    rw [hr]
    rcases d.snoopers m.type with _ | a
    · rcases d.default_snooper with _ | b <;> simp
    · simp

/-- Witness for C6: a broadcast message of type 0x10 reaches the
registered per-type receiver and no snooper. -/
theorem c6_witness :
    (MessageDispatcher.mk 5 0x22 (fun t => if t = 0x10 then some 1 else none) (some 2)
        (fun t => if t = 0x10 then some 3 else none) (some 4)).receive
      [0x00, 0xFF, 0xFF, 0x00, 0x01, 0x00, 0x22, 0x10] = Routed.viaReceivers 1 ∧
    ∀ h, (MessageDispatcher.mk 5 0x22 (fun t => if t = 0x10 then some 1 else none) (some 2)
        (fun t => if t = 0x10 then some 3 else none) (some 4)).receive
      [0x00, 0xFF, 0xFF, 0x00, 0x01, 0x00, 0x22, 0x10] ≠ Routed.viaSnoopers h := by
  have hmain := (c6_dispatcher_routing
    (MessageDispatcher.mk 5 0x22 (fun t => if t = 0x10 then some 1 else none) (some 2)
        (fun t => if t = 0x10 then some 3 else none) (some 4))
    [0x00, 0xFF, 0xFF, 0x00, 0x01, 0x00, 0x22, 0x10]
    (Message.mk 0 (some 0xFFFF) (some 1) (some 0x22) (some 0x10) [] [])
    (by decide)).1 (Or.inr (Or.inr (by decide)))
  exact ⟨hmain.1.trans (by decide), fun h => (hmain.2 h).1⟩

/-- C7 counterexample: encoding the payload 7E 7D 00 as a serial frame
with tag 0x45 writes nothing at all — the writer's escape loop xors a
bytes slice with an int and raises TypeError on the first byte needing an
escape — so in particular the claimed wire bytes are not produced. -/
theorem c7_counterexample :
    serialWriteWire none (some [0x7E, 0x7D, 0x00]) = none := by decide

/-- C7 amended: attempting to encode payload 7E 7D 00 as a serial frame
with tag 0x45 crashes the writer's escape loop and nothing reaches the
wire; the intended escaping (the exact inverse of the reader, as the spec
describes it) would produce 7E 45 7D 5E 7D 5D 00 D5 6F 7E — the tag byte
0x45 is part of the frame and appears on the wire, which the claim
omits — while the raw HDLC escaping of 7E 7D 00 alone is
7E 7D 5E 7D 5D 00 7E, as the claim states. -/
theorem c7_amended_wire_bytes :
    serialWriteWire none (some [0x7E, 0x7D, 0x00]) = none ∧
    hdlc_encode ([0x45, 0x7E, 0x7D, 0x00] ++ crcLE [0x45, 0x7E, 0x7D, 0x00]) =
      [0x7E, 0x45, 0x7D, 0x5E, 0x7D, 0x5D, 0x00, 0xD5, 0x6F, 0x7E] ∧
    hdlc_encode [0x7E, 0x7D, 0x00] = [0x7E, 0x7D, 0x5E, 0x7D, 0x5D, 0x00, 0x7E] := by
  set_option maxRecDepth 4000 in decide

/-- C8 counterexample: deserializing nine zero bytes succeeds and yields
a footer of length 1, which is neither 0 nor 2. -/
theorem c8_counterexample :
    (Message.deserialize [0, 0, 0, 0, 0, 0, 0, 0, 0]).map (fun m => m._footer.length) =
      some 1 ∧ ¬((1 : Nat) = 0 ∨ (1 : Nat) = 2) := by decide

/-- C8 amended: a directly constructed Message has an empty footer, and a
successfully deserialized Message has a footer of length equal to the
input length minus the 8 header bytes minus the payload length — a value
that is not restricted to 0 or 2. -/
theorem c8_amended_footer (ptype : Nat) (dest : Option Nat) (payload : List Nat)
    (data : List Nat) (m : Message) (hm : Message.deserialize data = some m) :
    (Message.init ptype dest payload)._footer = [] ∧
    8 + m._payload.length + m._footer.length = data.length := by
  refine ⟨rfl, ?_⟩
  rcases data with _ | ⟨d0, data⟩; · cases hm
  rcases data with _ | ⟨d1, data⟩; · cases hm
  rcases data with _ | ⟨d2, data⟩; · cases hm
  rcases data with _ | ⟨d3, data⟩; · cases hm
  rcases data with _ | ⟨d4, data⟩; · cases hm
  rcases data with _ | ⟨len, data⟩; · cases hm
  rcases data with _ | ⟨d6, data⟩; · cases hm
  rcases data with _ | ⟨d7, rest⟩; · cases hm
  rw [show Message.deserialize (d0 :: d1 :: d2 :: d3 :: d4 :: len :: d6 :: d7 :: rest) =
      (if len ≤ rest.length then
        some { _dispatch := d0, _destination := some (d1 * 256 + d2),
               _source := some (d3 * 256 + d4), _group := some d6, _type := some d7,
               _payload := rest.take len, _footer := rest.drop len }
      else none) from rfl] at hm
  by_cases hlen : len ≤ rest.length
  · rw [if_pos hlen] at hm
    injection hm with hm
    subst hm
    simp [List.length_take, List.length_drop]
    omega
  · rw [if_neg hlen] at hm
    cases hm

/-- Witness for C8's amended statement at the nine-zero-byte input. -/
theorem c8_witness :
    (Message.init 0 none [])._footer = [] ∧
    8 + (Message.mk 0 (some 0) (some 0) (some 0) (some 0) [] [0])._payload.length +
        (Message.mk 0 (some 0) (some 0) (some 0) (some 0) [] [0])._footer.length =
      ([0, 0, 0, 0, 0, 0, 0, 0, 0] : List Nat).length :=
  c8_amended_footer 0 none [] [0, 0, 0, 0, 0, 0, 0, 0, 0]
    (Message.mk 0 (some 0) (some 0) (some 0) (some 0) [] [0]) rfl

end Moteconnection
